import Mathlib

/-!
Verification of the template-evaluation core of libKitsunemimiJinja2
(`src/jinja2_converter.cpp`). The data context (`DataItem` trees from the
external libKitsunemimiCommon library) is embedded as the inductive `Value`;
the parsed template AST (`Jinja2Item` chains) as the inductive `Jinja2Item`;
the evaluator `Jinja2Converter::processItem` / `processReplace` /
`processIfCondition` / `processForLoop` as the function `processItem`, where
the C++ in-place mutation of the output string and of the shared context map
is made explicit by threading both through every call and returning them.
-/

namespace Kitsune
namespace Jinja2

/-- The hierarchical data context. External collaborator of the repository
(`Kitsune::Common::DataItem` of libKitsunemimiCommon), modelled at its
interface as described by the specification: a recursive variant
`Null | Bool | Int | Float | String | Array<Value> | Map<String,Value>`.
The `float` payload is irrelevant to every operation of this core (its type
tag alone is inspected), so it is left abstract. -/
inductive Value where
  | null
  | bool (b : Bool)
  | int (n : Int)
  | float
  | str (s : String)
  | arr (elems : List Value)
  | map (entries : List (String × Value))

/-- The evaluation context: the root `DataMap*` passed into evaluation. -/
abbrev Ctx := List (String × Value)

/-- Map lookup by key (`DataMap::get`). -/
def mapGet : Ctx → String → Option Value
  | [], _ => none
  | (k, v) :: rest, key => if k == key then some v else mapGet rest key

/-- Map insertion with overwrite (`DataMap::insert(key, value, force = true)`):
replaces the value when the key is present, otherwise adds the binding. -/
def mapInsert : Ctx → String → Value → Ctx
  | [], key, v => [(key, v)]
  | (k, w) :: rest, key, v =>
    if k == key then (key, v) :: rest else (k, w) :: mapInsert rest key v

/-- Generic child access `DataItem::get(key)`: a map lookup when the current
value is a Map, and a null result (`nullptr`) on every other value type. -/
def Value.get : Value → String → Option Value
  | .map entries, key => mapGet entries key
  | _, _ => none

/-- Type test: is the value a Map. -/
def Value.isMap : Value → Bool
  | .map _ => true
  | _ => false

/-- Type test: is the value an Array (`getType() == ARRAY_TYPE`). -/
def Value.isArr : Value → Bool
  | .arr _ => true
  | _ => false

/-- The key-by-key search loop of `Jinja2Converter::getItem`: starting from
the current value, look up each remaining path segment; a null intermediate
result aborts with a not-found failure (`second = false`, here `none`). -/
def getItemStep : Value → List String → Option Value
  | v, [] => some v
  | v, key :: rest =>
    match v.get key with
    | none => none
    | some child => getItemStep child rest

/-- `Jinja2Converter::getItem`: resolve a path of string keys against the
input map, beginning at the map root itself. -/
def getItem (input : Ctx) (jsonPath : List String) : Option Value :=
  getItemStep (Value.map input) jsonPath

/-- `Jinja2Converter::getString`: resolve the path with `getItem`, then
accept exactly a String value (returned verbatim) or an Int value (rendered
with `std::to_string`, i.e. canonical base-10 text); every other resolved
type leaves `result.second == false`, a failure. -/
def getString (input : Ctx) (jsonPath : List String) : Option String :=
  match getItem input jsonPath with
  | none => none
  | some item =>
    match item with
    | .str s => some s
    | .int n => some (toString n)
    | _ => none

/-- `Jinja2Converter::createErrorMessage`. The loop over the path appends a
`"."` separator before every segment after the first, but the line that
would append the segment's own text is commented out in the source
(`//errorMessage.append(jsonPath->get(i));`), so only the separators reach
the message. The fold below reproduces that loop literally. -/
def createErrorMessage (jsonPath : List String) : String :=
  let header := "error while converting jinja2-template \n"
    ++ "    can not find item in path in json-input: "
  let withPath := (List.range jsonPath.length).foldl
    (fun acc i => if i != 0 then acc ++ "." else acc) header
  withPath ++ "\n"
    ++ "    or maybe the item does not have a valid format"
    ++ " or the place where it should be used \n"

/-- Modelled from the spec: the textual form of the if-condition's
right-hand-side literal (`ifCondition->rightSide.toString()`). `rightSide`
is declared in `jinja2_items.h`, which is not under `src/`; its `toString`
belongs to the external value library. The specification calls it "the
literal right-hand side's textual form" for a scalar literal; every theorem
below holds for an arbitrary such function. -/
def Value.toText : Value → String
  | .null => ""
  | .bool b => if b then "true" else "false"
  | .int n => toString n
  | .float => ""
  | .str s => s
  | .arr _ => ""
  | .map _ => ""

/-- The if-condition test of `Jinja2Converter::processIfCondition`
(lines 190-192): the resolved string equals the right-hand side's textual
form, or the fixed token `"True"`, or the fixed token `"true"`. -/
def condMatches (resolved : String) (rightSide : Value) : Bool :=
  resolved == rightSide.toText || resolved == "True" || resolved == "true"

/-- The parsed template AST (`Jinja2Item` and its subclasses `TextItem`,
`ReplaceItem`, `IfItem`, `ForLoopItem` from `jinja2_items.h`; the fields are
exactly the ones the converter under `src/` reads). Every node carries its
`next` sibling link; branch and body fields hold the head of a nested chain
(`none` standing for a null child pointer). -/
inductive Jinja2Item where
  | text (t : String) (next : Option Jinja2Item)
  | replace (iterateArray : List String) (next : Option Jinja2Item)
  | ifItem (leftSide : List String) (rightSide : Value)
      (ifChild : Option Jinja2Item) (elseChild : Option Jinja2Item)
      (next : Option Jinja2Item)
  | forLoop (tempVarName : String) (iterateArray : List String)
      (forChild : Option Jinja2Item) (next : Option Jinja2Item)

mutual

/-- `Jinja2Converter::processItem` together with the node handlers it
dispatches to (`processReplace`, `processIfCondition`, `processForLoop`).
The result triple is (return value, final output string, final context map):
the C++ mutates `output` and `input` in place, which the embedding threads
explicitly. Note two behaviours taken verbatim from the source:
the if-branch calls on lines 194 and 199 discard the branch's boolean
result and evaluation always proceeds to `next`; a for-loop source of
non-Array type returns `false` without touching the output. -/
def processItem : Ctx → Option Jinja2Item → String → Bool × String × Ctx
  | input, none, output => (true, output, input)
  | input, some (.text t next), output =>
    processItem input next (output ++ t)
  | input, some (.replace iterateArray next), output =>
    match getString input iterateArray with
    | none => (false, createErrorMessage iterateArray, input)
    | some s => processItem input next (output ++ s)
  | input, some (.ifItem leftSide rightSide ifChild elseChild next), output =>
    match getString input leftSide with
    | none => (false, createErrorMessage leftSide, input)
    | some s =>
      if condMatches s rightSide then
        let r := processItem input ifChild output
        processItem r.2.2 next r.2.1
      else
        match elseChild with
        | some e =>
          let r := processItem input (some e) output
          processItem r.2.2 next r.2.1
        | none => processItem input next output
  | input, some (.forLoop tempVarName iterateArray forChild next), output =>
    match getItem input iterateArray with
    | none => (false, createErrorMessage iterateArray, input)
    | some item =>
      match item with
      | .arr elems =>
        match runLoop tempVarName forChild input elems output with
        | (false, out, ctx) => (false, out, ctx)
        | (true, out, ctx) => processItem ctx next out
      | _ => (false, output, input)
termination_by _ part _ => (sizeOf part, 0)

/-- The iteration loop of `Jinja2Converter::processForLoop` (lines 238-247):
for each array element in index order, insert `tempVarName → element` into
the shared context map, evaluate the body, and return immediately with the
body's result on the first failure. -/
def runLoop (tempVarName : String) (forChild : Option Jinja2Item) :
    Ctx → List Value → String → Bool × String × Ctx
  | input, [], output => (true, output, input)
  | input, x :: rest, output =>
    let input2 := mapInsert input tempVarName x
    match processItem input2 forChild output with
    | (false, out, ctx) => (false, out, ctx)
    | (true, out, ctx) => runLoop tempVarName forChild ctx rest out
termination_by _ elems _ => (sizeOf forChild + 1, elems.length)

end

/-! ### Helper lemmas -/

/-- Resolving a concatenated path first resolves the front part, then
continues from the intermediate value it reached. -/
lemma getItemStep_append (p q : List String) (v : Value) :
    getItemStep v (p ++ q) = (getItemStep v p).bind (fun w => getItemStep w q) := by
  induction p generalizing v with
  | nil => simp [getItemStep]
  | cons k rest ih =>
    simp only [List.cons_append, getItemStep]
    cases h : v.get k with
    | none => simp
    | some child => simp [ih]

/-- Child access on any value that is not a Map yields a null result. -/
lemma Value.get_eq_none_of_not_map (v : Value) (hv : v.isMap = false) (key : String) :
    v.get key = none := by
  cases v <;> simp_all [Value.isMap, Value.get]

/-- The scalar-to-text coercion as the specification words it (§4.1): a
String is returned verbatim, an Int as its canonical base-10 text, and any
other resolved type is not coercible. Stated from the spec's words, to be
compared with the source-translated `getString`. -/
def specStringCoercion : Value → Option String
  | .str s => some s
  | .int n => some (toString n)
  | _ => none

/-! ### Claim theorems -/

/-- Claim C1 (code bug, evaluation at the failing input): an `If` node whose
condition resolves successfully (context binds `c` to the string `"true"`),
whose `thenBranch` is a `Replace` of the unresolvable path `["missing"]`, and
whose next sibling is the text `"END"`. The branch's `Replace` fails — it
clears the buffer, writes its diagnostic and returns `false` — yet
`processIfCondition` (lines 194, 199 of the source) discards that boolean,
so the render continues with the next sibling and returns overall success
with the diagnostic text plus `"END"` in the buffer. The claim (and the
spec's stated contract) requires the branch failure to propagate and abort
the render instead. -/
theorem ifBranchFailure_swallowed :
    processItem [("c", Value.str "true")]
      (some (.ifItem ["c"] (Value.str "yes") (some (.replace ["missing"] none)) none
        (some (.text "END" none)))) ""
    = (true, createErrorMessage ["missing"] ++ "END", [("c", Value.str "true")]) := by
  simp [processItem, runLoop, getItem, getItemStep, getString, mapGet, mapInsert, Value.get,
    condMatches, Value.toText, createErrorMessage]

/-- Claim C2 (code bug, evaluation at the failing input): the diagnostic
built for the path `["user", "name"]` contains only the `"."` separator and
none of the segment texts — the source's append of the segment itself is
commented out (line 346) — so the message is even identical to the one built
for a completely different two-segment path. The claim (and the spec)
requires the joined text `user.name` to appear. -/
theorem createErrorMessage_omits_segments :
    createErrorMessage ["user", "name"]
      = "error while converting jinja2-template \n    can not find item in path in json-input: .\n    or maybe the item does not have a valid format or the place where it should be used \n"
    ∧ createErrorMessage ["user", "name"] = createErrorMessage ["other", "path"] :=
  ⟨rfl, rfl⟩

/-- Claim C3, counterexample to the claim as stated: after the text `"AB"`
has been emitted, a `ForLoop` whose source path `["s"]` resolves to the
string `"hi"` makes the render fail — but the accumulated output `"AB"` is
returned untouched (line 233 of the source is a bare `return false`), not
replaced by a descriptive message as the claim asserts. -/
theorem forLoop_nonArray_output_not_replaced_cex :
    processItem [("s", Value.str "hi")]
        (some (.text "AB" (some (.forLoop "i" ["s"] (some (.text "x" none)) none)))) ""
      = (false, "AB", [("s", Value.str "hi")])
    ∧ "AB" ≠ createErrorMessage ["s"] := by
  refine ⟨?_, ?_⟩
  · simp [processItem, runLoop, getItem, getItemStep, mapGet, Value.get]
  · decide

/-- Claim C3 as amended: a `ForLoop` whose source path resolves to a value
that is not an Array fails, evaluates the body zero times (so the loop
contributes no output at all), and returns the accumulated output and the
context unchanged — the output is not replaced by a diagnostic message. -/
theorem forLoop_nonArray_fails_outputUnchanged (input : Ctx) (tempVarName : String)
    (iterateArray : List String) (forChild next : Option Jinja2Item) (output : String)
    (v : Value) (hres : getItem input iterateArray = some v) (hv : v.isArr = false) :
    processItem input (some (.forLoop tempVarName iterateArray forChild next)) output
      = (false, output, input) := by
  cases v <;> simp_all [processItem, Value.isArr]

/-- Claim C3 witness: the amended theorem applied to the counterexample's
loop alone, with `"AB"` as the accumulated output. -/
theorem forLoop_nonArray_fails_outputUnchanged_witness :
    getItem [("s", Value.str "hi")] ["s"] = some (Value.str "hi")
    ∧ (Value.str "hi").isArr = false
    ∧ processItem [("s", Value.str "hi")]
        (some (.forLoop "i" ["s"] (some (.text "x" none)) none)) "AB"
      = (false, "AB", [("s", Value.str "hi")]) :=
  ⟨rfl, rfl, forLoop_nonArray_fails_outputUnchanged _ _ _ _ _ _ _ rfl rfl⟩

/-- Claim C4, counterexample to the claim as stated: a `ForLoop` over
`[Int 1, Bool true]` with body `Replace(["i"])` appends `"1"` in the first
iteration; the second iteration's body fails (a Bool is not coercible), and
that failing `Replace` clears the whole buffer — including the `"1"` from
the prior successful iteration — before writing its diagnostic. The final
buffer is exactly the diagnostic, which contains no character `'1'`: prior
iterations' output IS retracted here, contrary to the claim. -/
theorem forLoop_priorOutput_retracted_cex :
    processItem [("xs", Value.arr [Value.int 1, Value.bool true])]
        (some (.forLoop "i" ["xs"] (some (.replace ["i"] none)) none)) ""
      = (false, createErrorMessage ["i"],
         [("xs", Value.arr [Value.int 1, Value.bool true]), ("i", Value.bool true)])
    ∧ (createErrorMessage ["i"]).toList.contains '1' = false := by
  refine ⟨?_, ?_⟩
  · simp [processItem, runLoop, getItem, getItemStep, getString, mapGet, mapInsert, Value.get,
      createErrorMessage]
  · set_option maxRecDepth 4096 in decide

/-- Claim C4 as amended: the first iteration whose body evaluation fails
aborts the whole render with exactly the triple (flag, buffer, context)
produced by that body evaluation — `processForLoop` itself neither clears
the buffer nor appends anything (lines 244-246 are a bare `return false`).
Whether prior iterations' output survives therefore depends on the failing
body node alone: a body failing through Replace/If path resolution has
already cleared the entire buffer (retracting prior iterations' output),
while a body failing through a nested non-array `ForLoop` leaves it
untouched. -/
theorem forLoop_iterationFailure_propagatesVerbatim (input : Ctx) (tempVarName : String)
    (iterateArray : List String) (forChild next : Option Jinja2Item) (output e : String)
    (elems : List Value) (c : Ctx)
    (hres : getItem input iterateArray = some (.arr elems))
    (hrun : runLoop tempVarName forChild input elems output = (false, e, c)) :
    processItem input (some (.forLoop tempVarName iterateArray forChild next)) output
      = (false, e, c) := by
  simp [processItem, hres, hrun]

/-- Claim C4 witness: the amended theorem applied to the counterexample's
input, whose second iteration fails and hands back the cleared buffer. -/
theorem forLoop_iterationFailure_propagatesVerbatim_witness :
    getItem [("xs", Value.arr [Value.int 1, Value.bool true])] ["xs"]
      = some (Value.arr [Value.int 1, Value.bool true])
    ∧ runLoop "i" (some (.replace ["i"] none))
        [("xs", Value.arr [Value.int 1, Value.bool true])]
        [Value.int 1, Value.bool true] ""
      = (false, createErrorMessage ["i"],
         [("xs", Value.arr [Value.int 1, Value.bool true]), ("i", Value.bool true)])
    ∧ processItem [("xs", Value.arr [Value.int 1, Value.bool true])]
        (some (.forLoop "i" ["xs"] (some (.replace ["i"] none)) none)) ""
      = (false, createErrorMessage ["i"],
         [("xs", Value.arr [Value.int 1, Value.bool true]), ("i", Value.bool true)]) := by
  have hrun : runLoop "i" (some (.replace ["i"] none))
      [("xs", Value.arr [Value.int 1, Value.bool true])]
      [Value.int 1, Value.bool true] ""
      = (false, createErrorMessage ["i"],
         [("xs", Value.arr [Value.int 1, Value.bool true]), ("i", Value.bool true)]) := by
    simp [processItem, runLoop, getItem, getItemStep, getString, mapGet, mapInsert, Value.get]
  exact ⟨rfl, hrun,
    forLoop_iterationFailure_propagatesVerbatim _ _ _ _ _ _ _ _ _ rfl hrun⟩

/-- Claim C5: a `ForLoop` over the Int array `[1, 2, 3]` with binding name
`"i"` and body `Replace(["i"])` renders `"123"`, and after the loop the
binding `"i"` is still present in the very context map handed onward —
the loop inserted into the shared map, not into a private overlay, and the
last element remains bound. -/
theorem forLoop_sharedMap_binding_example :
    processItem [("arr", Value.arr [Value.int 1, Value.int 2, Value.int 3])]
        (some (.forLoop "i" ["arr"] (some (.replace ["i"] none)) none)) ""
      = (true, "123",
         [("arr", Value.arr [Value.int 1, Value.int 2, Value.int 3]), ("i", Value.int 3)])
    ∧ mapGet [("arr", Value.arr [Value.int 1, Value.int 2, Value.int 3]),
        ("i", Value.int 3)] "i" = some (Value.int 3) := by
  refine ⟨?_, rfl⟩
  simp [processItem, runLoop, getItem, getItemStep, getString, mapGet, mapInsert, Value.get]
  rfl

/-- Claim C6: a `Replace` node whose path does not resolve to a coercible
string aborts at once with `false` — whatever output had been accumulated
(`output` is universally quantified here) is discarded and replaced by the
diagnostic built from the failing path, the context is untouched, and the
node's `next` sibling is never evaluated. -/
theorem processReplace_failure_discards_output (input : Ctx) (iterateArray : List String)
    (next : Option Jinja2Item) (output : String)
    (h : getString input iterateArray = none) :
    processItem input (some (.replace iterateArray next)) output
      = (false, createErrorMessage iterateArray, input) := by
  simp [processItem, h]

/-- Claim C6 witness: a `Replace` of an unresolvable path with non-trivial
accumulated output. -/
theorem processReplace_failure_discards_output_witness :
    getString [] ["missing"] = none
    ∧ processItem [] (some (.replace ["missing"] none)) "accumulated"
      = (false, createErrorMessage ["missing"], []) :=
  ⟨rfl, processReplace_failure_discards_output [] ["missing"] none "accumulated" rfl⟩

/-- Claim C7: once `getItem` has resolved the path, `getString` agrees with
the coercion the specification describes — the value verbatim when it is a
String, its canonical base-10 text when it is an Int, and failure on every
other value type (Null, Bool, Float, Array, Map); no wider coercion
exists. -/
theorem getString_coercion (input : Ctx) (jsonPath : List String) (v : Value)
    (h : getItem input jsonPath = some v) :
    getString input jsonPath = specStringCoercion v := by
  cases v <;> (unfold getString specStringCoercion; rw [h])

/-- Claim C7 witness: a negative Int resolves to its base-10 text `"-5"`,
while a Bool resolution fails. -/
theorem getString_coercion_witness :
    getItem [("n", Value.int (-5)), ("b", Value.bool true)] ["n"] = some (Value.int (-5))
    ∧ getString [("n", Value.int (-5)), ("b", Value.bool true)] ["n"]
        = specStringCoercion (Value.int (-5))
    ∧ specStringCoercion (Value.int (-5)) = some "-5"
    ∧ getString [("n", Value.int (-5)), ("b", Value.bool true)] ["b"]
        = specStringCoercion (Value.bool true)
    ∧ specStringCoercion (Value.bool true) = none :=
  ⟨rfl,
    getString_coercion [("n", Value.int (-5)), ("b", Value.bool true)] ["n"]
      (Value.int (-5)) rfl,
    rfl,
    getString_coercion [("n", Value.int (-5)), ("b", Value.bool true)] ["b"]
      (Value.bool true) rfl,
    rfl⟩

/-- Claim C8: when a path's front part resolves to an intermediate value
that is not a Map, resolving the full path fails (the next key's lookup on
a non-Map value yields null, line 316-319 of the source), and the render of
a `Replace` carrying that path produces the diagnostic built from the FULL
original path — the failure never panics, `getItem` being total over all
inputs of the embedding by construction. -/
theorem getItem_nonMap_intermediate_fails (input : Ctx) (front : List String) (k : String)
    (rest : List String) (v : Value) (output : String) (next : Option Jinja2Item)
    (hmid : getItem input front = some v) (hv : v.isMap = false) :
    getItem input (front ++ k :: rest) = none
    ∧ processItem input (some (.replace (front ++ k :: rest) next)) output
      = (false, createErrorMessage (front ++ k :: rest), input) := by
  have hnone : getItem input (front ++ k :: rest) = none := by
    unfold getItem at hmid ⊢
    rw [getItemStep_append, hmid]
    simp [getItemStep, Value.get_eq_none_of_not_map v hv k]
  have hgs : getString input (front ++ k :: rest) = none := by
    simp [getString, hnone]
  exact ⟨hnone, by simp [processItem, hgs]⟩

/-- Claim C8 witness: path `["a", "b"]` where `"a"` resolves to a String. -/
theorem getItem_nonMap_intermediate_fails_witness :
    getItem [("a", Value.str "x")] ["a"] = some (Value.str "x")
    ∧ (Value.str "x").isMap = false
    ∧ (getItem [("a", Value.str "x")] ["a", "b"] = none
       ∧ processItem [("a", Value.str "x")] (some (.replace ["a", "b"] none)) "out"
         = (false, createErrorMessage ["a", "b"], [("a", Value.str "x")])) :=
  ⟨rfl, rfl,
    getItem_nonMap_intermediate_fails [("a", Value.str "x")] ["a"] "b" [] (Value.str "x")
      "out" none rfl rfl⟩

/-- Claim C9: when the `If` condition's path resolves to a string `s`, the
condition test succeeds exactly when `s` equals the right-hand-side
literal's textual form, or the token `"True"`, or the token `"true"`; and
whenever `s` is the literal `"true"` the `thenBranch` is taken — evaluation
becomes the branch evaluation chained into the `next` sibling — regardless
of the right-hand-side literal. -/
theorem ifCondition_truth_iff (input : Ctx) (leftSide : List String) (rightSide : Value)
    (ifChild elseChild next : Option Jinja2Item) (output s : String)
    (h : getString input leftSide = some s) :
    (condMatches s rightSide = true ↔
      (s = rightSide.toText ∨ s = "True" ∨ s = "true"))
    ∧ (s = "true" →
        processItem input (some (.ifItem leftSide rightSide ifChild elseChild next)) output
          = processItem (processItem input ifChild output).2.2 next
              (processItem input ifChild output).2.1) := by
  constructor
  · simp [condMatches, or_assoc]
  · intro hs
    subst hs
    have hc : condMatches "true" rightSide = true := by simp [condMatches]
    cases elseChild <;> simp [processItem, h, hc]

/-- Claim C9 witness: the condition resolves to `"true"` while the declared
right-hand side is the Int literal `7`; the truth test still succeeds and
the then-branch is taken. -/
theorem ifCondition_truth_iff_witness :
    getString [("c", Value.str "true")] ["c"] = some "true"
    ∧ ((condMatches "true" (Value.int 7) = true ↔
        ("true" = (Value.int 7).toText ∨ "true" = "True" ∨ "true" = "true"))
       ∧ ("true" = "true" →
           processItem [("c", Value.str "true")]
               (some (.ifItem ["c"] (Value.int 7) (some (.text "T" none)) none none)) ""
             = processItem
                 (processItem [("c", Value.str "true")] (some (.text "T" none)) "").2.2 none
                 (processItem [("c", Value.str "true")] (some (.text "T" none)) "").2.1)) :=
  ⟨rfl, ifCondition_truth_iff [("c", Value.str "true")] ["c"] (Value.int 7)
    (some (.text "T" none)) none none "" "true" rfl⟩

/-- Claim C10: a `ForLoop` whose source path resolves to the empty Array
evaluates its body zero times and is exactly the evaluation of its `next`
sibling on the unchanged output and the unchanged context map — in
particular nothing is appended by the loop and the binding name is never
inserted. -/
theorem forLoop_emptyArray_noop (input : Ctx) (tempVarName : String)
    (iterateArray : List String) (forChild next : Option Jinja2Item) (output : String)
    (h : getItem input iterateArray = some (.arr [])) :
    processItem input (some (.forLoop tempVarName iterateArray forChild next)) output
      = processItem input next output := by
  simp [processItem, runLoop, h]

/-- Claim C10 witness: a loop over an empty array followed by the text
`"E"`; the render is the sibling's render, on the untouched context. -/
theorem forLoop_emptyArray_noop_witness :
    getItem [("xs", Value.arr [])] ["xs"] = some (Value.arr [])
    ∧ processItem [("xs", Value.arr [])]
        (some (.forLoop "i" ["xs"] (some (.replace ["i"] none)) (some (.text "E" none)))) ""
      = processItem [("xs", Value.arr [])] (some (.text "E" none)) "" :=
  ⟨rfl, forLoop_emptyArray_noop [("xs", Value.arr [])] "i" ["xs"]
    (some (.replace ["i"] none)) (some (.text "E" none)) "" rfl⟩

end Jinja2
end Kitsune
